import Mathlib

/-! The `telio` FFI header (`src/v5/telio.h`) as data.

The header has no function bodies: it is a sequence of record definitions,
function-pointer typedefs and function prototypes.  The embedding below keeps
every declaration of the header, in source order, as a value of `Decl`; the
properties of the interface are then statements about the list `header`.
-/

namespace Telio

set_option maxRecDepth 100000

/-- The C types that occur in the header.  `named` is a typedef name
(`RustBuffer`, `ForeignCallback`, ...), `ptr t` is `t *` and `const t` is
`const t`. -/
inductive CType where
  | void
  | int8_t
  | uint8_t
  | int16_t
  | uint16_t
  | int32_t
  | uint32_t
  | int64_t
  | uint64_t
  | float
  | double
  | named (n : String)
  | ptr (t : CType)
  | const (t : CType)
  deriving DecidableEq

/-- A parameter of a prototype or a field of a record: its type and, when the
source writes one, its name. -/
structure Param where
  ty : CType
  name : Option String
  deriving DecidableEq

/-- A parameter or field the source names. -/
def arg (t : CType) (n : String) : Param := ⟨t, some n⟩

/-- A parameter the source leaves unnamed. -/
def anon (t : CType) : Param := ⟨t, none⟩

/-- A top-level declaration of the header:
`typedef struct N { fields } N;`, `typedef R (*N)(params);` or `R N(params);`. -/
inductive Decl where
  | struct (name : String) (fields : List Param)
  | fnptr (name : String) (ret : CType) (params : List Param)
  | proto (name : String) (ret : CType) (params : List Param)
  deriving DecidableEq

/-- The typedef name `RustBuffer` used as a type. -/
def rustBuffer : CType := .named "RustBuffer"

/-- The parameter `RustCallStatus* out_status`. -/
def outStatus : Param := arg (.ptr (.named "RustCallStatus")) "out_status"

/-- The records and function-pointer types of the shared block (lines 26-58). -/
def sharedDecls : List Decl :=
  [ .struct "RustBuffer" [arg .int32_t "capacity", arg .int32_t "len", arg (.ptr .uint8_t) "data"]
  , .fnptr "ForeignCallback" .int32_t [anon .uint64_t, anon .int32_t, anon (.ptr .uint8_t), anon .int32_t, anon (.ptr rustBuffer)]
  , .fnptr "RustTaskCallback" .void [anon (.ptr (.const .void)), anon .int8_t]
  , .fnptr "ForeignExecutorCallback" .int8_t [anon .uint64_t, anon .uint32_t, anon (.named "RustTaskCallback"), anon (.ptr .void)]
  , .struct "ForeignBytes" [arg .int32_t "len", arg (.ptr (.const .uint8_t)) "data"]
  , .struct "RustCallStatus" [arg .int8_t "code", arg rustBuffer "errorBuf"]
  , .fnptr "RustFutureContinuation" .void [anon (.ptr .void), anon .int8_t] ]

/-- The callback bridges (lines 65-69). -/
def bridgeDecls : List Decl :=
  [ .proto "cgo_rust_task_callback_bridge_telio" .void [anon (.named "RustTaskCallback"), anon (.ptr (.const .void)), anon .int8_t]
  , .proto "uniffiForeignExecutorCallbacktelio" .int8_t [anon .uint64_t, anon .uint32_t, anon (.named "RustTaskCallback"), anon (.ptr .void)]
  , .proto "uniffiFutureContinuationCallbacktelio" .void [anon (.ptr .void), anon .int8_t] ]

/-- The engine object: destructor, constructors and methods (lines 71-275). -/
def objectDecls : List Decl :=
  [ .proto "uniffi_telio_fn_free_telio" .void [arg (.ptr .void) "ptr", outStatus]
  , .proto "uniffi_telio_fn_constructor_telio_new" (.ptr .void) [arg rustBuffer "features", arg .uint64_t "events", outStatus]
  , .proto "uniffi_telio_fn_constructor_telio_new_with_protect" (.ptr .void) [arg rustBuffer "features", arg .uint64_t "events", arg .uint64_t "protect", outStatus]
  , .proto "uniffi_telio_fn_method_telio_connect_to_exit_node" .void [arg (.ptr .void) "ptr", arg rustBuffer "public_key", arg rustBuffer "allowed_ips", arg rustBuffer "endpoint", outStatus]
  , .proto "uniffi_telio_fn_method_telio_connect_to_exit_node_postquantum" .void [arg (.ptr .void) "ptr", arg rustBuffer "identifier", arg rustBuffer "public_key", arg rustBuffer "allowed_ips", arg rustBuffer "endpoint", outStatus]
  , .proto "uniffi_telio_fn_method_telio_connect_to_exit_node_with_id" .void [arg (.ptr .void) "ptr", arg rustBuffer "identifier", arg rustBuffer "public_key", arg rustBuffer "allowed_ips", arg rustBuffer "endpoint", outStatus]
  , .proto "uniffi_telio_fn_method_telio_disable_magic_dns" .void [arg (.ptr .void) "ptr", outStatus]
  , .proto "uniffi_telio_fn_method_telio_disconnect_from_exit_node" .void [arg (.ptr .void) "ptr", arg rustBuffer "public_key", outStatus]
  , .proto "uniffi_telio_fn_method_telio_disconnect_from_exit_nodes" .void [arg (.ptr .void) "ptr", outStatus]
  , .proto "uniffi_telio_fn_method_telio_enable_magic_dns" .void [arg (.ptr .void) "ptr", arg rustBuffer "forward_servers", outStatus]
  , .proto "uniffi_telio_fn_method_telio_generate_stack_panic" .void [arg (.ptr .void) "ptr", outStatus]
  , .proto "uniffi_telio_fn_method_telio_generate_thread_panic" .void [arg (.ptr .void) "ptr", outStatus]
  , .proto "uniffi_telio_fn_method_telio_get_adapter_luid" .uint64_t [arg (.ptr .void) "ptr", outStatus]
  , .proto "uniffi_telio_fn_method_telio_get_last_error" rustBuffer [arg (.ptr .void) "ptr", outStatus]
  , .proto "uniffi_telio_fn_method_telio_get_nat" rustBuffer [arg (.ptr .void) "ptr", arg rustBuffer "ip", arg .uint16_t "port", outStatus]
  , .proto "uniffi_telio_fn_method_telio_get_secret_key" rustBuffer [arg (.ptr .void) "ptr", outStatus]
  , .proto "uniffi_telio_fn_method_telio_get_status_map" rustBuffer [arg (.ptr .void) "ptr", outStatus]
  , .proto "uniffi_telio_fn_method_telio_is_running" .int8_t [arg (.ptr .void) "ptr", outStatus]
  , .proto "uniffi_telio_fn_method_telio_notify_network_change" .void [arg (.ptr .void) "ptr", arg rustBuffer "network_info", outStatus]
  , .proto "uniffi_telio_fn_method_telio_notify_sleep" .void [arg (.ptr .void) "ptr", outStatus]
  , .proto "uniffi_telio_fn_method_telio_notify_wakeup" .void [arg (.ptr .void) "ptr", outStatus]
  , .proto "uniffi_telio_fn_method_telio_probe_pmtu" .uint32_t [arg (.ptr .void) "ptr", arg rustBuffer "host", outStatus]
  , .proto "uniffi_telio_fn_method_telio_receive_ping" rustBuffer [arg (.ptr .void) "ptr", outStatus]
  , .proto "uniffi_telio_fn_method_telio_set_fwmark" .void [arg (.ptr .void) "ptr", arg .uint32_t "fwmark", outStatus]
  , .proto "uniffi_telio_fn_method_telio_set_meshnet" .void [arg (.ptr .void) "ptr", arg rustBuffer "cfg", outStatus]
  , .proto "uniffi_telio_fn_method_telio_set_meshnet_off" .void [arg (.ptr .void) "ptr", outStatus]
  , .proto "uniffi_telio_fn_method_telio_set_secret_key" .void [arg (.ptr .void) "ptr", arg rustBuffer "secret_key", outStatus]
  , .proto "uniffi_telio_fn_method_telio_shutdown" .void [arg (.ptr .void) "ptr", outStatus]
  , .proto "uniffi_telio_fn_method_telio_shutdown_hard" .void [arg (.ptr .void) "ptr", outStatus]
  , .proto "uniffi_telio_fn_method_telio_start" .void [arg (.ptr .void) "ptr", arg rustBuffer "secret_key", arg rustBuffer "adapter", outStatus]
  , .proto "uniffi_telio_fn_method_telio_start_named" .void [arg (.ptr .void) "ptr", arg rustBuffer "secret_key", arg rustBuffer "adapter", arg rustBuffer "name", outStatus]
  , .proto "uniffi_telio_fn_method_telio_start_with_tun" .void [arg (.ptr .void) "ptr", arg rustBuffer "secret_key", arg rustBuffer "adapter", arg .int32_t "tun", outStatus]
  , .proto "uniffi_telio_fn_method_telio_stop" .void [arg (.ptr .void) "ptr", outStatus]
  , .proto "uniffi_telio_fn_method_telio_trigger_analytics_event" .void [arg (.ptr .void) "ptr", outStatus]
  , .proto "uniffi_telio_fn_method_telio_trigger_qos_collection" .void [arg (.ptr .void) "ptr", outStatus] ]

/-- Callback registration and free functions (lines 277-331). -/
def funcDecls : List Decl :=
  [ .proto "uniffi_telio_fn_init_callback_telioeventcb" .void [arg (.named "ForeignCallback") "callback_stub", outStatus]
  , .proto "uniffi_telio_fn_init_callback_teliologgercb" .void [arg (.named "ForeignCallback") "callback_stub", outStatus]
  , .proto "uniffi_telio_fn_init_callback_telioprotectcb" .void [arg (.named "ForeignCallback") "callback_stub", outStatus]
  , .proto "uniffi_telio_fn_func_deserialize_feature_config" rustBuffer [arg rustBuffer "fstr", outStatus]
  , .proto "uniffi_telio_fn_func_deserialize_meshnet_config" rustBuffer [arg rustBuffer "cfg_str", outStatus]
  , .proto "uniffi_telio_fn_func_generate_public_key" rustBuffer [arg rustBuffer "secret_key", outStatus]
  , .proto "uniffi_telio_fn_func_generate_secret_key" rustBuffer [outStatus]
  , .proto "uniffi_telio_fn_func_get_commit_sha" rustBuffer [outStatus]
  , .proto "uniffi_telio_fn_func_get_default_adapter" rustBuffer [outStatus]
  , .proto "uniffi_telio_fn_func_get_default_feature_config" rustBuffer [outStatus]
  , .proto "uniffi_telio_fn_func_get_version_tag" rustBuffer [outStatus]
  , .proto "uniffi_telio_fn_func_set_global_logger" .void [arg rustBuffer "log_level", arg .uint64_t "logger", outStatus] ]

/-- Buffer utilities and the continuation setter (lines 333-357). -/
def bufferDecls : List Decl :=
  [ .proto "ffi_telio_rustbuffer_alloc" rustBuffer [arg .int32_t "size", outStatus]
  , .proto "ffi_telio_rustbuffer_from_bytes" rustBuffer [arg (.named "ForeignBytes") "bytes", outStatus]
  , .proto "ffi_telio_rustbuffer_free" .void [arg rustBuffer "buf", outStatus]
  , .proto "ffi_telio_rustbuffer_reserve" rustBuffer [arg rustBuffer "buf", arg .int32_t "additional", outStatus]
  , .proto "ffi_telio_rust_future_continuation_callback_set" .void [arg (.named "RustFutureContinuation") "callback", outStatus] ]

/-- The async task functions (lines 359-630). -/
def futureDecls : List Decl :=
  [ .proto "ffi_telio_rust_future_poll_u8" .void [arg (.ptr .void) "handle", arg (.ptr .void) "uniffi_callback", outStatus]
  , .proto "ffi_telio_rust_future_cancel_u8" .void [arg (.ptr .void) "handle", outStatus]
  , .proto "ffi_telio_rust_future_free_u8" .void [arg (.ptr .void) "handle", outStatus]
  , .proto "ffi_telio_rust_future_complete_u8" .uint8_t [arg (.ptr .void) "handle", outStatus]
  , .proto "ffi_telio_rust_future_poll_i8" .void [arg (.ptr .void) "handle", arg (.ptr .void) "uniffi_callback", outStatus]
  , .proto "ffi_telio_rust_future_cancel_i8" .void [arg (.ptr .void) "handle", outStatus]
  , .proto "ffi_telio_rust_future_free_i8" .void [arg (.ptr .void) "handle", outStatus]
  , .proto "ffi_telio_rust_future_complete_i8" .int8_t [arg (.ptr .void) "handle", outStatus]
  , .proto "ffi_telio_rust_future_poll_u16" .void [arg (.ptr .void) "handle", arg (.ptr .void) "uniffi_callback", outStatus]
  , .proto "ffi_telio_rust_future_cancel_u16" .void [arg (.ptr .void) "handle", outStatus]
  , .proto "ffi_telio_rust_future_free_u16" .void [arg (.ptr .void) "handle", outStatus]
  , .proto "ffi_telio_rust_future_complete_u16" .uint16_t [arg (.ptr .void) "handle", outStatus]
  , .proto "ffi_telio_rust_future_poll_i16" .void [arg (.ptr .void) "handle", arg (.ptr .void) "uniffi_callback", outStatus]
  , .proto "ffi_telio_rust_future_cancel_i16" .void [arg (.ptr .void) "handle", outStatus]
  , .proto "ffi_telio_rust_future_free_i16" .void [arg (.ptr .void) "handle", outStatus]
  , .proto "ffi_telio_rust_future_complete_i16" .int16_t [arg (.ptr .void) "handle", outStatus]
  , .proto "ffi_telio_rust_future_poll_u32" .void [arg (.ptr .void) "handle", arg (.ptr .void) "uniffi_callback", outStatus]
  , .proto "ffi_telio_rust_future_cancel_u32" .void [arg (.ptr .void) "handle", outStatus]
  , .proto "ffi_telio_rust_future_free_u32" .void [arg (.ptr .void) "handle", outStatus]
  , .proto "ffi_telio_rust_future_complete_u32" .uint32_t [arg (.ptr .void) "handle", outStatus]
  , .proto "ffi_telio_rust_future_poll_i32" .void [arg (.ptr .void) "handle", arg (.ptr .void) "uniffi_callback", outStatus]
  , .proto "ffi_telio_rust_future_cancel_i32" .void [arg (.ptr .void) "handle", outStatus]
  , .proto "ffi_telio_rust_future_free_i32" .void [arg (.ptr .void) "handle", outStatus]
  , .proto "ffi_telio_rust_future_complete_i32" .int32_t [arg (.ptr .void) "handle", outStatus]
  , .proto "ffi_telio_rust_future_poll_u64" .void [arg (.ptr .void) "handle", arg (.ptr .void) "uniffi_callback", outStatus]
  , .proto "ffi_telio_rust_future_cancel_u64" .void [arg (.ptr .void) "handle", outStatus]
  , .proto "ffi_telio_rust_future_free_u64" .void [arg (.ptr .void) "handle", outStatus]
  , .proto "ffi_telio_rust_future_complete_u64" .uint64_t [arg (.ptr .void) "handle", outStatus]
  , .proto "ffi_telio_rust_future_poll_i64" .void [arg (.ptr .void) "handle", arg (.ptr .void) "uniffi_callback", outStatus]
  , .proto "ffi_telio_rust_future_cancel_i64" .void [arg (.ptr .void) "handle", outStatus]
  , .proto "ffi_telio_rust_future_free_i64" .void [arg (.ptr .void) "handle", outStatus]
  , .proto "ffi_telio_rust_future_complete_i64" .int64_t [arg (.ptr .void) "handle", outStatus]
  , .proto "ffi_telio_rust_future_poll_f32" .void [arg (.ptr .void) "handle", arg (.ptr .void) "uniffi_callback", outStatus]
  , .proto "ffi_telio_rust_future_cancel_f32" .void [arg (.ptr .void) "handle", outStatus]
  , .proto "ffi_telio_rust_future_free_f32" .void [arg (.ptr .void) "handle", outStatus]
  , .proto "ffi_telio_rust_future_complete_f32" .float [arg (.ptr .void) "handle", outStatus]
  , .proto "ffi_telio_rust_future_poll_f64" .void [arg (.ptr .void) "handle", arg (.ptr .void) "uniffi_callback", outStatus]
  , .proto "ffi_telio_rust_future_cancel_f64" .void [arg (.ptr .void) "handle", outStatus]
  , .proto "ffi_telio_rust_future_free_f64" .void [arg (.ptr .void) "handle", outStatus]
  , .proto "ffi_telio_rust_future_complete_f64" .double [arg (.ptr .void) "handle", outStatus]
  , .proto "ffi_telio_rust_future_poll_pointer" .void [arg (.ptr .void) "handle", arg (.ptr .void) "uniffi_callback", outStatus]
  , .proto "ffi_telio_rust_future_cancel_pointer" .void [arg (.ptr .void) "handle", outStatus]
  , .proto "ffi_telio_rust_future_free_pointer" .void [arg (.ptr .void) "handle", outStatus]
  , .proto "ffi_telio_rust_future_complete_pointer" (.ptr .void) [arg (.ptr .void) "handle", outStatus]
  , .proto "ffi_telio_rust_future_poll_rust_buffer" .void [arg (.ptr .void) "handle", arg (.ptr .void) "uniffi_callback", outStatus]
  , .proto "ffi_telio_rust_future_cancel_rust_buffer" .void [arg (.ptr .void) "handle", outStatus]
  , .proto "ffi_telio_rust_future_free_rust_buffer" .void [arg (.ptr .void) "handle", outStatus]
  , .proto "ffi_telio_rust_future_complete_rust_buffer" rustBuffer [arg (.ptr .void) "handle", outStatus]
  , .proto "ffi_telio_rust_future_poll_void" .void [arg (.ptr .void) "handle", arg (.ptr .void) "uniffi_callback", outStatus]
  , .proto "ffi_telio_rust_future_cancel_void" .void [arg (.ptr .void) "handle", outStatus]
  , .proto "ffi_telio_rust_future_free_void" .void [arg (.ptr .void) "handle", outStatus]
  , .proto "ffi_telio_rust_future_complete_void" .void [arg (.ptr .void) "handle", outStatus] ]

/-- The checksum accessors (lines 632-814). -/
def checksumDecls : List Decl :=
  [ .proto "uniffi_telio_checksum_func_deserialize_feature_config" .uint16_t [outStatus]
  , .proto "uniffi_telio_checksum_func_deserialize_meshnet_config" .uint16_t [outStatus]
  , .proto "uniffi_telio_checksum_func_generate_public_key" .uint16_t [outStatus]
  , .proto "uniffi_telio_checksum_func_generate_secret_key" .uint16_t [outStatus]
  , .proto "uniffi_telio_checksum_func_get_commit_sha" .uint16_t [outStatus]
  , .proto "uniffi_telio_checksum_func_get_default_adapter" .uint16_t [outStatus]
  , .proto "uniffi_telio_checksum_func_get_default_feature_config" .uint16_t [outStatus]
  , .proto "uniffi_telio_checksum_func_get_version_tag" .uint16_t [outStatus]
  , .proto "uniffi_telio_checksum_func_set_global_logger" .uint16_t [outStatus]
  , .proto "uniffi_telio_checksum_method_telio_connect_to_exit_node" .uint16_t [outStatus]
  , .proto "uniffi_telio_checksum_method_telio_connect_to_exit_node_postquantum" .uint16_t [outStatus]
  , .proto "uniffi_telio_checksum_method_telio_connect_to_exit_node_with_id" .uint16_t [outStatus]
  , .proto "uniffi_telio_checksum_method_telio_disable_magic_dns" .uint16_t [outStatus]
  , .proto "uniffi_telio_checksum_method_telio_disconnect_from_exit_node" .uint16_t [outStatus]
  , .proto "uniffi_telio_checksum_method_telio_disconnect_from_exit_nodes" .uint16_t [outStatus]
  , .proto "uniffi_telio_checksum_method_telio_enable_magic_dns" .uint16_t [outStatus]
  , .proto "uniffi_telio_checksum_method_telio_generate_stack_panic" .uint16_t [outStatus]
  , .proto "uniffi_telio_checksum_method_telio_generate_thread_panic" .uint16_t [outStatus]
  , .proto "uniffi_telio_checksum_method_telio_get_adapter_luid" .uint16_t [outStatus]
  , .proto "uniffi_telio_checksum_method_telio_get_last_error" .uint16_t [outStatus]
  , .proto "uniffi_telio_checksum_method_telio_get_nat" .uint16_t [outStatus]
  , .proto "uniffi_telio_checksum_method_telio_get_secret_key" .uint16_t [outStatus]
  , .proto "uniffi_telio_checksum_method_telio_get_status_map" .uint16_t [outStatus]
  , .proto "uniffi_telio_checksum_method_telio_is_running" .uint16_t [outStatus]
  , .proto "uniffi_telio_checksum_method_telio_notify_network_change" .uint16_t [outStatus]
  , .proto "uniffi_telio_checksum_method_telio_notify_sleep" .uint16_t [outStatus]
  , .proto "uniffi_telio_checksum_method_telio_notify_wakeup" .uint16_t [outStatus]
  , .proto "uniffi_telio_checksum_method_telio_probe_pmtu" .uint16_t [outStatus]
  , .proto "uniffi_telio_checksum_method_telio_receive_ping" .uint16_t [outStatus]
  , .proto "uniffi_telio_checksum_method_telio_set_fwmark" .uint16_t [outStatus]
  , .proto "uniffi_telio_checksum_method_telio_set_meshnet" .uint16_t [outStatus]
  , .proto "uniffi_telio_checksum_method_telio_set_meshnet_off" .uint16_t [outStatus]
  , .proto "uniffi_telio_checksum_method_telio_set_secret_key" .uint16_t [outStatus]
  , .proto "uniffi_telio_checksum_method_telio_shutdown" .uint16_t [outStatus]
  , .proto "uniffi_telio_checksum_method_telio_shutdown_hard" .uint16_t [outStatus]
  , .proto "uniffi_telio_checksum_method_telio_start" .uint16_t [outStatus]
  , .proto "uniffi_telio_checksum_method_telio_start_named" .uint16_t [outStatus]
  , .proto "uniffi_telio_checksum_method_telio_start_with_tun" .uint16_t [outStatus]
  , .proto "uniffi_telio_checksum_method_telio_stop" .uint16_t [outStatus]
  , .proto "uniffi_telio_checksum_method_telio_trigger_analytics_event" .uint16_t [outStatus]
  , .proto "uniffi_telio_checksum_method_telio_trigger_qos_collection" .uint16_t [outStatus]
  , .proto "uniffi_telio_checksum_constructor_telio_new" .uint16_t [outStatus]
  , .proto "uniffi_telio_checksum_constructor_telio_new_with_protect" .uint16_t [outStatus]
  , .proto "uniffi_telio_checksum_method_telioeventcb_event" .uint16_t [outStatus]
  , .proto "uniffi_telio_checksum_method_teliologgercb_log" .uint16_t [outStatus]
  , .proto "uniffi_telio_checksum_method_telioprotectcb_protect" .uint16_t [outStatus] ]

/-- The contract version accessor and the host trampolines (lines 816-823). -/
def tailDecls : List Decl :=
  [ .proto "ffi_telio_uniffi_contract_version" .uint32_t [outStatus]
  , .proto "telio_cgo_TelioEventCb" .int32_t [anon .uint64_t, anon .int32_t, anon (.ptr .uint8_t), anon .int32_t, anon (.ptr rustBuffer)]
  , .proto "telio_cgo_TelioLoggerCb" .int32_t [anon .uint64_t, anon .int32_t, anon (.ptr .uint8_t), anon .int32_t, anon (.ptr rustBuffer)]
  , .proto "telio_cgo_TelioProtectCb" .int32_t [anon .uint64_t, anon .int32_t, anon (.ptr .uint8_t), anon .int32_t, anon (.ptr rustBuffer)] ]

/-- Every declaration of the header, in source order. -/
def header : List Decl :=
  sharedDecls ++ bridgeDecls ++ objectDecls ++ funcDecls ++ bufferDecls ++
    futureDecls ++ checksumDecls ++ tailDecls

/-- The declared name. -/
def Decl.name : Decl → String
  | .struct n _ => n
  | .fnptr n _ _ => n
  | .proto n _ _ => n

/-- The parameters of a prototype or function-pointer type (the fields, for a
record). -/
def Decl.params : Decl → List Param
  | .struct _ fs => fs
  | .fnptr _ _ ps => ps
  | .proto _ _ ps => ps

/-- The return type of a prototype or function-pointer type. -/
def Decl.ret : Decl → Option CType
  | .struct _ _ => none
  | .fnptr _ r _ => some r
  | .proto _ r _ => some r

/-- Whether the declaration is a function prototype. -/
def Decl.isProto : Decl → Bool
  | .proto _ _ _ => true
  | _ => false

/-- The types of the parameters, in order. -/
def Decl.paramTypes (d : Decl) : List CType := d.params.map Param.ty

/-- Whether the name `s` starts with the characters of `pre`. -/
def beginsWith (pre s : String) : Bool := pre.data.isPrefixOf s.data

/-- The name `s` without its first `k` characters. -/
def afterHead (k : Nat) (s : String) : String := ⟨s.data.drop k⟩

/-- The name `s` in lower case. -/
def lower (s : String) : String := ⟨s.data.map Char.toLower⟩

/-- The declarations of the header with the given name. -/
def lookup (n : String) : List Decl := header.filter fun d => d.name == n

/-- Whether the header declares a prototype named `n`. -/
def declared (n : String) : Bool := header.any fun d => d.isProto && d.name == n

/-- The type `RustCallStatus*`. -/
def statusType : CType := .ptr (.named "RustCallStatus")

/-- An engine operation: a prototype named `uniffi_telio_fn_method_telio_*`. -/
def isEngineOp (d : Decl) : Bool :=
  d.isProto && beginsWith "uniffi_telio_fn_method_telio_" d.name

/-- An exported function of the native library: a prototype named
`uniffi_telio_*` or `ffi_telio_*`. -/
def isExportedOp (d : Decl) : Bool :=
  d.isProto && (beginsWith "uniffi_telio_" d.name || beginsWith "ffi_telio_" d.name)

/-- A callback signature: a function-pointer type, or a prototype that is not an
exported function of the library (the task, executor and continuation bridges
and the `telio_cgo_*` trampolines, which the host implements). -/
def isCallbackSig : Decl → Bool
  | .struct _ _ => false
  | .fnptr _ _ _ => true
  | .proto n r ps => !isExportedOp (.proto n r ps)

/-- A free function, engine method or constructor: a prototype named
`uniffi_telio_fn_func_*`, `uniffi_telio_fn_method_telio_*` or
`uniffi_telio_fn_constructor_telio_*`. -/
def isApiFn (d : Decl) : Bool :=
  d.isProto && (beginsWith "uniffi_telio_fn_func_" d.name ||
    beginsWith "uniffi_telio_fn_method_telio_" d.name ||
    beginsWith "uniffi_telio_fn_constructor_telio_" d.name)

/-- A checksum accessor: a prototype named `uniffi_telio_checksum_*`. -/
def isChecksum (d : Decl) : Bool :=
  d.isProto && beginsWith "uniffi_telio_checksum_" d.name

/-- The name of the checksum accessor of the function `uniffi_telio_fn_S`:
`uniffi_telio_checksum_S`. -/
def checksumOf (fn : String) : String :=
  "uniffi_telio_checksum_" ++ afterHead "uniffi_telio_fn_".length fn

/-- The symbol `S` that the checksum accessor `uniffi_telio_checksum_S` names. -/
def checksumTarget (c : String) : String := afterHead "uniffi_telio_checksum_".length c

/-- The callback methods as the checksum accessors name them (lines 804-812):
`TelioEventCb.event`, `TelioLoggerCb.log`, `TelioProtectCb.protect`. -/
def callbackMethods : List String :=
  ["method_telioeventcb_event", "method_teliologgercb_log", "method_telioprotectcb_protect"]

/-- The callback interfaces, as the host trampolines `telio_cgo_*` name them
(lines 821-823). -/
def callbackInterfaces : List String := ["TelioEventCb", "TelioLoggerCb", "TelioProtectCb"]

/-- A callback registration function: a prototype named
`uniffi_telio_fn_init_callback_*`. -/
def isInitCallback (d : Decl) : Bool :=
  d.isProto && beginsWith "uniffi_telio_fn_init_callback_" d.name

/-- A host trampoline: a prototype named `telio_cgo_*`. -/
def isTrampoline (d : Decl) : Bool := d.isProto && beginsWith "telio_cgo_" d.name

/-- The result-type categories of the async task functions with the C type of
each. -/
def resultTypes : List (String × CType) :=
  [ ("u8", .uint8_t), ("i8", .int8_t), ("u16", .uint16_t), ("i16", .int16_t)
  , ("u32", .uint32_t), ("i32", .int32_t), ("u64", .uint64_t), ("i64", .int64_t)
  , ("f32", .float), ("f64", .double), ("pointer", .ptr .void)
  , ("rust_buffer", rustBuffer), ("void", .void) ]

/-- The name `ffi_telio_rust_future_<op>_<T>`. -/
def futureName (op T : String) : String := "ffi_telio_rust_future_" ++ op ++ "_" ++ T

/-- The four operations of an async task. -/
def futureOps : List String := ["poll", "cancel", "free", "complete"]

/-- A prototype named `ffi_telio_rust_future_{poll,cancel,free,complete}_*`. -/
def isFutureOp (d : Decl) : Bool :=
  d.isProto && futureOps.any fun op => beginsWith (futureName op "") d.name

/-- The names of the four operations for every result-type category. -/
def quartetNames : List String :=
  resultTypes.flatMap fun T => futureOps.map fun op => futureName op T.1

/-- The parameter `void* handle`. -/
def handleParam : Param := arg (.ptr .void) "handle"


/-! ## Sample declarations -/

/-- The engine method `uniffi_telio_fn_method_telio_get_nat` (lines 157-162). -/
def getNatDecl : Decl :=
  .proto "uniffi_telio_fn_method_telio_get_nat" rustBuffer
    [arg (.ptr .void) "ptr", arg rustBuffer "ip", arg .uint16_t "port", outStatus]

/-- The checksum accessor `uniffi_telio_checksum_method_telio_get_nat`
(lines 712-714). -/
def getNatChecksumDecl : Decl :=
  .proto "uniffi_telio_checksum_method_telio_get_nat" .uint16_t [outStatus]

/-- The buffer utility `ffi_telio_rustbuffer_reserve` (lines 348-352). -/
def reserveDecl : Decl :=
  .proto "ffi_telio_rustbuffer_reserve" rustBuffer
    [arg rustBuffer "buf", arg .int32_t "additional", outStatus]

/-! ## The owned byte buffer and `reserve` -/

/-- The largest value of `int32_t`, the type of `capacity`, `len` and
`additional` in the header. -/
def INT32_MAX : Int := 2147483647

/-- Modelled from the spec: the value of an Owned Byte Buffer.  The header gives
the record `RustBuffer` (lines 26-30) with its `int32_t` fields `capacity` and
`len`; the storage behind the `uint8_t *data` pointer is not part of the header
and is kept here as the list of the `capacity` bytes, the first `len` of which
are the content. -/
structure RustBuffer where
  capacity : Int
  len : Int
  data : List Nat
  deriving DecidableEq

/-- A buffer the record can hold: `0 ≤ len ≤ capacity ≤ INT32_MAX`, with
`capacity` bytes of storage, each a `uint8_t`. -/
def RustBuffer.valid (b : RustBuffer) : Prop :=
  0 ≤ b.len ∧ b.len ≤ b.capacity ∧ b.capacity ≤ INT32_MAX ∧
    (b.data.length : Int) = b.capacity ∧ ∀ x ∈ b.data, x < 256

/-- The first `n` bytes of the storage. -/
def RustBuffer.firstBytes (b : RustBuffer) (n : Int) : List Nat := b.data.take n.toNat

/-- Modelled from the spec: `ffi_telio_rustbuffer_reserve`, which the header
only declares (lines 348-352); its body is in the native library.  Section 4.1:
it returns a new (possibly relocated) buffer with capacity at least the current
length plus `additional`, preserving the existing bytes; section 7: a buffer
failure is reported with status code 2.  The result is the returned buffer with
the code written to `out_status`; a request whose capacity does not fit the
`int32_t` field is a failure. -/
def ffi_telio_rustbuffer_reserve (buf : RustBuffer) (additional : Int) : RustBuffer × Int :=
  if additional < 0 ∨ INT32_MAX < buf.len + additional then
    (⟨0, 0, []⟩, 2)
  else if buf.len + additional ≤ buf.capacity then
    (buf, 0)
  else
    (⟨buf.len + additional, buf.len,
      buf.firstBytes buf.len ++ List.replicate additional.toNat 0⟩, 0)

/-! ## The declarations counted -/

/-- The header has 164 top-level declarations. -/
theorem header_length : header.length = 164 := by decide!

/-- There are 32 engine operations. -/
theorem engineOps_count : (header.filter isEngineOp).length = 32 := by decide!

/-- There are 151 exported functions of the library. -/
theorem exportedOps_count : (header.filter isExportedOp).length = 151 := by decide!

/-- There are 10 callback signatures. -/
theorem callbackSigs_count : (header.filter isCallbackSig).length = 10 := by decide!

/-- There are 43 free functions, engine methods and constructors. -/
theorem apiFns_count : (header.filter isApiFn).length = 43 := by decide!

/-- There are 46 checksum accessors. -/
theorem checksums_count : (header.filter isChecksum).length = 46 := by decide!

/-- There are 52 async task functions. -/
theorem futureOps_count : (header.filter isFutureOp).length = 52 := by decide!

/-! ## Engine operations -/

/-- C1: every prototype named `uniffi_telio_fn_method_telio_*` has `void* ptr`
as its first parameter and `RustCallStatus* out_status` as its last. -/
theorem engineOp_handle_first_status_last (d : Decl) (hd : d ∈ header)
    (hop : isEngineOp d = true) :
    d.params.head? = some (arg (.ptr .void) "ptr") ∧
      d.params.getLast? = some outStatus := by
  revert d
  decide!

/-- C1 at the engine method `uniffi_telio_fn_method_telio_get_nat`. -/
theorem engineOp_handle_first_status_last_witness :
    getNatDecl ∈ header ∧ isEngineOp getNatDecl = true ∧
    getNatDecl.params.head? = some (arg (.ptr .void) "ptr") ∧
    getNatDecl.params.getLast? = some outStatus :=
  ⟨by decide!, by decide!,
    engineOp_handle_first_status_last getNatDecl (by decide!) (by decide!)⟩

/-! ## Checksum accessors -/

/-- C2, as stated, fails: the exported destructor `uniffi_telio_fn_free_telio`
is declared, and no checksum accessor of the header names it. -/
theorem free_telio_has_no_checksum :
    declared "uniffi_telio_fn_free_telio" = true ∧
    checksumOf "uniffi_telio_fn_free_telio" = "uniffi_telio_checksum_free_telio" ∧
    declared (checksumOf "uniffi_telio_fn_free_telio") = false ∧
    ∀ c ∈ header, isChecksum c = true → checksumTarget c.name ≠ "free_telio" := by
  decide!

/-- C2, amended: every free function, engine method and constructor
(`uniffi_telio_fn_func_*`, `uniffi_telio_fn_method_telio_*`,
`uniffi_telio_fn_constructor_telio_*`) has the checksum accessor
`uniffi_telio_checksum_*` of the same suffix declared in the header, and so has
every callback method (`TelioEventCb.event`, `TelioLoggerCb.log`,
`TelioProtectCb.protect`). -/
theorem apiFn_and_callback_method_have_checksum :
    (∀ d ∈ header, isApiFn d = true →
      d.name = "uniffi_telio_fn_" ++ checksumTarget (checksumOf d.name) ∧
      declared (checksumOf d.name) = true) ∧
    (∀ m ∈ callbackMethods, declared ("uniffi_telio_checksum_" ++ m) = true) := by
  decide!

/-- The amended C2 at the engine method `uniffi_telio_fn_method_telio_get_nat`. -/
theorem apiFn_and_callback_method_have_checksum_witness :
    getNatDecl ∈ header ∧ isApiFn getNatDecl = true ∧
    checksumOf getNatDecl.name = "uniffi_telio_checksum_method_telio_get_nat" ∧
    declared (checksumOf getNatDecl.name) = true :=
  ⟨by decide!, by decide!, by decide!,
    (apiFn_and_callback_method_have_checksum.1 getNatDecl (by decide!) (by decide!)).2⟩

/-- C10: every `uniffi_telio_checksum_*` declaration returns `uint16_t` and has
`RustCallStatus* out_status` as its only parameter; the symbol it names is a
declared `uniffi_telio_fn_{func,method_telio,constructor_telio}_*` function of the
same suffix or one of the three callback methods; and no two checksum accessors
name the same symbol. -/
theorem checksum_uniform_no_orphan :
    (∀ c ∈ header, isChecksum c = true →
      c.ret = some .uint16_t ∧ c.params = [outStatus] ∧
      c.name = "uniffi_telio_checksum_" ++ checksumTarget c.name ∧
      (((beginsWith "func_" (checksumTarget c.name) = true ∨
          beginsWith "method_telio_" (checksumTarget c.name) = true ∨
          beginsWith "constructor_telio_" (checksumTarget c.name) = true) ∧
          declared ("uniffi_telio_fn_" ++ checksumTarget c.name) = true) ∨
        checksumTarget c.name ∈ callbackMethods)) ∧
    ((header.filter isChecksum).map fun c => checksumTarget c.name).Nodup := by
  decide!

/-- C10 at the accessor `uniffi_telio_checksum_method_telio_get_nat`. -/
theorem checksum_uniform_no_orphan_witness :
    getNatChecksumDecl ∈ header ∧ isChecksum getNatChecksumDecl = true ∧
    checksumTarget getNatChecksumDecl.name = "method_telio_get_nat" ∧
    getNatChecksumDecl.ret = some .uint16_t ∧ getNatChecksumDecl.params = [outStatus] :=
  ⟨by decide!, by decide!, by decide!,
    (checksum_uniform_no_orphan.1 getNatChecksumDecl (by decide!) (by decide!)).1,
    (checksum_uniform_no_orphan.1 getNatChecksumDecl (by decide!) (by decide!)).2.1⟩

/-! ## The Call Status out-parameter -/

/-- C3, as stated, fails: the callback signature `ForeignCallback` (line 32) has
no `RustCallStatus*` parameter. -/
theorem foreignCallback_has_no_status :
    lookup "ForeignCallback" =
      [.fnptr "ForeignCallback" .int32_t
        [anon .uint64_t, anon .int32_t, anon (.ptr .uint8_t), anon .int32_t,
          anon (.ptr rustBuffer)]] ∧
    ∀ d ∈ lookup "ForeignCallback", statusType ∉ d.paramTypes := by
  decide!

/-- C3, amended: every exported function of the library (every prototype named
`uniffi_telio_*` or `ffi_telio_*`) has `RustCallStatus* out_status` as its last
parameter, and it is its only parameter of that type; the callback signatures
(the function-pointer types, the task, executor and continuation bridges and the
`telio_cgo_*` trampolines) have no `RustCallStatus*` parameter. -/
theorem exportedOp_status_last_callbacks_none :
    (∀ d ∈ header, isExportedOp d = true →
      d.params.getLast? = some outStatus ∧ d.paramTypes.count statusType = 1) ∧
    (∀ d ∈ header, isCallbackSig d = true → statusType ∉ d.paramTypes) := by
  decide!

/-- The amended C3 at the buffer utility `ffi_telio_rustbuffer_reserve`. -/
theorem exportedOp_status_last_callbacks_none_witness :
    reserveDecl ∈ header ∧ isExportedOp reserveDecl = true ∧
    reserveDecl.params.getLast? = some outStatus ∧
    reserveDecl.paramTypes.count statusType = 1 :=
  ⟨by decide!, by decide!,
    exportedOp_status_last_callbacks_none.1 reserveDecl (by decide!) (by decide!)⟩

/-! ## Async task functions -/

/-- C4: the prototypes named `ffi_telio_rust_future_{poll,cancel,free,complete}_*`
are, in source order, exactly the quartets `poll_T`, `cancel_T`, `free_T`,
`complete_T` of the 13 result-type categories `T`, each declared once: the
parameter lists do not depend on `T`, poll, cancel and free return `void`, and
`complete_T` returns the C type of `T`. -/
theorem future_quartets_uniform :
    resultTypes.map Prod.fst =
      ["u8", "i8", "u16", "i16", "u32", "i32", "u64", "i64", "f32", "f64", "pointer",
        "rust_buffer", "void"] ∧
    header.filter isFutureOp = resultTypes.flatMap (fun T =>
      [ .proto (futureName "poll" T.1) .void
          [handleParam, arg (.ptr .void) "uniffi_callback", outStatus]
      , .proto (futureName "cancel" T.1) .void [handleParam, outStatus]
      , .proto (futureName "free" T.1) .void [handleParam, outStatus]
      , .proto (futureName "complete" T.1) T.2 [handleParam, outStatus] ]) ∧
    (header.filter isFutureOp).map Decl.name = quartetNames ∧
    quartetNames.length = 4 * 13 ∧ quartetNames.Nodup := by
  decide!

/-- C5, as stated, fails: the second parameter of
`ffi_telio_rust_future_poll_u8` (line 361) has type `void*`, and no parameter of
the function has type `RustFutureContinuation`. -/
theorem poll_u8_callback_is_untyped :
    lookup "ffi_telio_rust_future_poll_u8" =
      [.proto "ffi_telio_rust_future_poll_u8" .void
        [arg (.ptr .void) "handle", arg (.ptr .void) "uniffi_callback", outStatus]] ∧
    (∀ d ∈ lookup "ffi_telio_rust_future_poll_u8",
      CType.named "RustFutureContinuation" ∉ d.paramTypes) ∧
    CType.ptr .void ≠ CType.named "RustFutureContinuation" := by
  decide!

/-- C5, amended: for every result type `T`, `ffi_telio_rust_future_poll_T` is
declared with the task handle (`void* handle`) and an untyped callback pointer
(`void* uniffi_callback`) as its arguments, followed by
`RustCallStatus* out_status`; the only prototype with a parameter of type
`RustFutureContinuation` is `ffi_telio_rust_future_continuation_callback_set`. -/
theorem poll_takes_handle_and_untyped_callback :
    (∀ T ∈ resultTypes, ∃ d ∈ header,
      d.name = futureName "poll" T.1 ∧
      d.params = [arg (.ptr .void) "handle", arg (.ptr .void) "uniffi_callback",
        outStatus]) ∧
    (header.filter fun d =>
        d.isProto && d.paramTypes.contains (.named "RustFutureContinuation")) =
      [.proto "ffi_telio_rust_future_continuation_callback_set" .void
        [arg (.named "RustFutureContinuation") "callback", outStatus]] := by
  decide!

/-! ## Callback interfaces -/

/-- C7: `ForeignCallback` is declared once; its parameters are, in order,
`uint64_t`, `int32_t`, `uint8_t*`, `int32_t` and `RustBuffer*`, and no other;
it returns `int32_t`. -/
theorem foreignCallback_signature :
    (lookup "ForeignCallback").map Decl.paramTypes =
      [[.uint64_t, .int32_t, .ptr .uint8_t, .int32_t, .ptr (.named "RustBuffer")]] ∧
    (lookup "ForeignCallback").map Decl.ret = [some .int32_t] := by
  decide!

/-- C6: the header registers exactly three callback interfaces, each through one
function `uniffi_telio_fn_init_callback_*` whose parameters are
`ForeignCallback callback_stub` and `RustCallStatus* out_status`; for each
interface there is exactly one host trampoline `telio_cgo_*`, with the parameter
and return types of `ForeignCallback`; there is no other registration function
and no other trampoline. -/
theorem callback_registration_and_trampolines :
    callbackInterfaces.length = 3 ∧
    (∀ I ∈ callbackInterfaces,
      lookup ("uniffi_telio_fn_init_callback_" ++ lower I) =
        [.proto ("uniffi_telio_fn_init_callback_" ++ lower I) .void
          [arg (.named "ForeignCallback") "callback_stub", outStatus]] ∧
      ∃ t, lookup ("telio_cgo_" ++ I) = [t] ∧ t.isProto = true ∧
        ∀ fc ∈ lookup "ForeignCallback",
          t.paramTypes = fc.paramTypes ∧ t.ret = fc.ret) ∧
    (header.filter isInitCallback).map Decl.name =
      callbackInterfaces.map (fun I => "uniffi_telio_fn_init_callback_" ++ lower I) ∧
    (header.filter isTrampoline).map Decl.name =
      callbackInterfaces.map (fun I => "telio_cgo_" ++ I) ∧
    (lookup "ForeignCallback").length = 1 := by
  refine ⟨by decide!, ?_, by decide!, by decide!, by decide!⟩
  intro I hI
  refine ⟨?_, ?_⟩
  · revert I
    decide!
  · refine ⟨(lookup ("telio_cgo_" ++ I)).headD (.struct "" []), ?_⟩
    revert I
    decide!

/-! ## Shared records -/

/-- C8: `RustBuffer` is the record `capacity : int32_t`, `len : int32_t`,
`data : uint8_t*`; `ForeignBytes` is `len : int32_t`, `data : const uint8_t*`;
`RustCallStatus` is `code : int8_t`, `errorBuf : RustBuffer`; each is defined
once, with exactly these fields in this order. -/
theorem shared_records_layout :
    lookup "RustBuffer" =
      [.struct "RustBuffer"
        [arg .int32_t "capacity", arg .int32_t "len", arg (.ptr .uint8_t) "data"]] ∧
    lookup "ForeignBytes" =
      [.struct "ForeignBytes"
        [arg .int32_t "len", arg (.ptr (.const .uint8_t)) "data"]] ∧
    lookup "RustCallStatus" =
      [.struct "RustCallStatus"
        [arg .int8_t "code", arg (.named "RustBuffer") "errorBuf"]] := by
  decide!

/-! ## `reserve` -/

/-- C9, as stated, fails: for the one-byte buffer and `k = 2147483647` the
returned capacity is below `len + k`, and no capacity that fits `int32_t`
reaches it. -/
theorem reserve_capacity_beyond_int32 :
    RustBuffer.valid ⟨1, 1, [7]⟩ ∧
    ¬ ((RustBuffer.mk 1 1 [7]).len + 2147483647 ≤
        (ffi_telio_rustbuffer_reserve ⟨1, 1, [7]⟩ 2147483647).1.capacity) ∧
    ∀ r : RustBuffer, r.valid → ¬ ((RustBuffer.mk 1 1 [7]).len + 2147483647 ≤ r.capacity) := by
  refine ⟨by simp [RustBuffer.valid, INT32_MAX], by decide, ?_⟩
  intro r hr
  simp only [RustBuffer.valid, INT32_MAX] at hr
  show ¬ ((1 : Int) + 2147483647 ≤ r.capacity)
  omega

/-- C9, amended: for every owned buffer `buf` and every `k ≥ 0` with
`len(buf) + k ≤ 2147483647`, `reserve(buf, k)` succeeds and returns a buffer
whose first `len(buf)` bytes equal those of `buf` and whose capacity is at least
`len(buf) + k`. -/
theorem reserve_preserves_bytes_and_grows (buf : RustBuffer) (k : Int)
    (hv : buf.valid) (hk : 0 ≤ k) (hfit : buf.len + k ≤ INT32_MAX) :
    (ffi_telio_rustbuffer_reserve buf k).2 = 0 ∧
    (ffi_telio_rustbuffer_reserve buf k).1.firstBytes buf.len = buf.firstBytes buf.len ∧
    (ffi_telio_rustbuffer_reserve buf k).1.len = buf.len ∧
    buf.len + k ≤ (ffi_telio_rustbuffer_reserve buf k).1.capacity ∧
    (ffi_telio_rustbuffer_reserve buf k).1.valid := by
  obtain ⟨h0, hlc, hcap, hlen, hbyte⟩ := hv
  have hno : ¬ (k < 0 ∨ INT32_MAX < buf.len + k) := by omega
  unfold ffi_telio_rustbuffer_reserve
  rw [if_neg hno]
  by_cases hroom : buf.len + k ≤ buf.capacity
  · rw [if_pos hroom]
    exact ⟨rfl, rfl, rfl, hroom, h0, hlc, hcap, hlen, hbyte⟩
  · rw [if_neg hroom]
    have htake : (buf.firstBytes buf.len).length = buf.len.toNat := by
      unfold RustBuffer.firstBytes
      rw [List.length_take]
      omega
    refine ⟨rfl, ?_, rfl, le_refl _, h0, by simpa using hk, hfit, ?_, ?_⟩
    · show List.take buf.len.toNat (buf.firstBytes buf.len ++ _) = buf.firstBytes buf.len
      rw [List.take_append_of_le_length (le_of_eq htake.symm),
        List.take_of_length_le (le_of_eq htake)]
    · show ((buf.firstBytes buf.len ++ List.replicate k.toNat 0).length : Int) = buf.len + k
      rw [List.length_append, htake, List.length_replicate]
      omega
    · intro x hx
      rcases List.mem_append.mp hx with hx | hx
      · exact hbyte x (List.mem_of_mem_take hx)
      · rw [(List.mem_replicate.mp hx).2]
        decide

/-- The amended C9 at the two-byte buffer `[10, 20]` with `k = 3`. -/
theorem reserve_preserves_bytes_and_grows_witness :
    (ffi_telio_rustbuffer_reserve ⟨2, 2, [10, 20]⟩ 3).2 = 0 ∧
    (ffi_telio_rustbuffer_reserve ⟨2, 2, [10, 20]⟩ 3).1.firstBytes 2 = [10, 20] ∧
    (ffi_telio_rustbuffer_reserve ⟨2, 2, [10, 20]⟩ 3).1.len = 2 ∧
    (2 : Int) + 3 ≤ (ffi_telio_rustbuffer_reserve ⟨2, 2, [10, 20]⟩ 3).1.capacity ∧
    (ffi_telio_rustbuffer_reserve ⟨2, 2, [10, 20]⟩ 3).1.valid :=
  reserve_preserves_bytes_and_grows ⟨2, 2, [10, 20]⟩ 3
    (by simp [RustBuffer.valid, INT32_MAX]) (by decide) (by decide)

end Telio
